import Mathlib

/-!
Verification development for the resilient request orchestration subsystem of
the ai-assistant-deepseek extension: the DeepSeek HTTP client with its
retry/backoff engine and response interceptor, the configuration validator,
the error classifier predicates, and the error-notification throttle.

Every definition is a shallow embedding of the corresponding TypeScript
source; machine numbers are modelled as Nat or Int, JavaScript Map objects
as insertion-ordered association lists, and wall-clock time (Date.now and
setTimeout) as explicit Nat milliseconds threaded through the state.
-/

namespace AssistantCore

/-! ## Association-list model of a JavaScript Map

JavaScript `Map` preserves insertion order; `set` replaces the value of an
existing key in place, `delete` removes the entry, `get` returns the value
or undefined.  We model it as a list of key-value pairs. -/

def mapLookup {α β : Type} [DecidableEq α] (m : List (α × β)) (k : α) : Option β :=
  match m with
  | [] => none
  | (k', v) :: rest => if k' = k then some v else mapLookup rest k

def mapInsert {α β : Type} [DecidableEq α] (m : List (α × β)) (k : α) (v : β) :
    List (α × β) :=
  match m with
  | [] => [(k, v)]
  | (k', v') :: rest =>
    if k' = k then (k, v) :: rest else (k', v') :: mapInsert rest k v

def mapErase {α β : Type} [DecidableEq α] (m : List (α × β)) (k : α) : List (α × β) :=
  match m with
  | [] => []
  | (k', v') :: rest => if k' = k then rest else (k', v') :: mapErase rest k

theorem mapLookup_eq_none_of_forall_ne {α β : Type} [DecidableEq α]
    {m : List (α × β)} {k : α} (h : ∀ k' v', (k', v') ∈ m → k' ≠ k) :
    mapLookup m k = none := by
  induction m with
  | nil => rfl
  | cons p rest ih =>
    obtain ⟨k', v'⟩ := p
    have hne : k' ≠ k := h k' v' (List.mem_cons_self _ _)
    simp only [mapLookup, if_neg hne]
    exact ih fun a b hab => h a b (List.mem_cons_of_mem _ hab)

theorem mem_mapInsert {α β : Type} [DecidableEq α]
    {m : List (α × β)} {k : α} {v : β} {k' : α} {v' : β}
    (h : (k', v') ∈ mapInsert m k v) : (k', v') ∈ m ∨ k' = k := by
  induction m with
  | nil =>
    simp only [mapInsert, List.mem_singleton] at h
    exact Or.inr (by simpa using congrArg Prod.fst h)
  | cons p rest ih =>
    obtain ⟨a, b⟩ := p
    simp only [mapInsert] at h
    by_cases hak : a = k
    · rw [if_pos hak] at h
      rcases List.mem_cons.mp h with h1 | h1
      · exact Or.inr (by simpa using congrArg Prod.fst h1)
      · exact Or.inl (List.mem_cons_of_mem _ h1)
    · rw [if_neg hak] at h
      rcases List.mem_cons.mp h with h1 | h1
      · exact Or.inl (by simp [h1])
      · rcases ih h1 with h2 | h2
        · exact Or.inl (List.mem_cons_of_mem _ h2)
        · exact Or.inr h2

theorem mapLookup_mapInsert_self {α β : Type} [DecidableEq α]
    (m : List (α × β)) (k : α) (v : β) :
    mapLookup (mapInsert m k v) k = some v := by
  induction m with
  | nil => simp [mapInsert, mapLookup]
  | cons p rest ih =>
    obtain ⟨a, b⟩ := p
    by_cases hak : a = k
    · simp [mapInsert, mapLookup, hak]
    · simp [mapInsert, mapLookup, hak, ih]

/-! ## JavaScript-style string helpers

Defined over the character list of the string so that concrete evaluations
reduce inside the kernel; Char.isWhitespace covers the whitespace
characters relevant to the embedded trims. -/

def strTrim (s : String) : String :=
  ⟨(((s.data.dropWhile Char.isWhitespace).reverse).dropWhile Char.isWhitespace).reverse⟩

def strLength (s : String) : Nat := s.data.length

def strTake (n : Nat) (s : String) : String := ⟨s.data.take n⟩

def strIsPrefixOf (p s : String) : Bool := p.data.isPrefixOf s.data

/-- Does pat occur inside l (as a contiguous run)? -/
def containsAux (pat : List Char) : List Char → Bool
  | [] => pat.isPrefixOf []
  | c :: rest => pat.isPrefixOf (c :: rest) || containsAux pat rest

/-- JavaScript String.prototype.includes. -/
def includesSubstring (s pat : String) : Bool := containsAux pat.data s.data

def splitOnChar (c : Char) : List Char → List (List Char)
  | [] => [[]]
  | x :: xs =>
    match splitOnChar c xs with
    | [] => [[]]
    | h :: t => if x = c then [] :: h :: t else (x :: h) :: t

/-- JavaScript String.prototype.split on the newline character. -/
def splitLines (s : String) : List String :=
  (splitOnChar (Char.ofNat 10) s.data).map String.mk

/-! ## Failure model

An `ApiFailure` is the shape of the runtime value rejected by the HTTP
layer (an AxiosError): an optional response (HTTP status plus the parsed
DeepSeekError body), a flag for whether a request object is attached (set
for transport-level failures), an optional Node error code, and an optional
message string. -/

structure DeepSeekErrorBody where
  /-- Models response.data.error?.message of the DeepSeekError payload. -/
  errorMessage : Option String
deriving DecidableEq, Repr

structure HttpErrorResponse where
  status : Nat
  data : DeepSeekErrorBody
deriving DecidableEq, Repr

structure ApiFailure where
  response : Option HttpErrorResponse
  hasRequest : Bool
  code : Option String
  message : Option String
deriving DecidableEq, Repr

/-! ## Error classifier predicates (src/src/utils/logger.ts, ErrorHandler) -/

/-- ErrorHandler.isNetworkError: no response, and a connection-refused,
host-not-found or network-unreachable code, or a message mentioning
"network". -/
def isNetworkError (e : ApiFailure) : Bool :=
  e.response.isNone &&
    (e.code == some "ECONNREFUSED" || e.code == some "ENOTFOUND" ||
     e.code == some "ENETUNREACH" ||
     (match e.message with
      | some m => includesSubstring m "network"
      | none => false))

/-- ErrorHandler.isAuthenticationError: response status 401 or 403. -/
def isAuthenticationError (e : ApiFailure) : Bool :=
  match e.response with
  | some r => decide (r.status = 401) || decide (r.status = 403)
  | none => false

/-- ErrorHandler.isRateLimitError: response status 429. -/
def isRateLimitError (e : ApiFailure) : Bool :=
  match e.response with
  | some r => decide (r.status = 429)
  | none => false

inductive ErrorClassification where
  | Network
  | Authentication
  | RateLimit
  | ServerFault
  | ClientFault
  | Unknown
deriving DecidableEq, Repr

/-- The Error Classifier of the specification, assembled from the source:
the dispatch order network, then authentication, then rate limit is that of
ErrorHandler.handleApiError (src/src/utils/logger.ts), and the remaining
server-fault versus client-fault split follows the status tests of
DeepSeekClient.shouldRetry and handleApiError (status at least 500 versus
the remaining 4xx statuses). -/
def classify (e : ApiFailure) : ErrorClassification :=
  if isNetworkError e then .Network
  else if isAuthenticationError e then .Authentication
  else if isRateLimitError e then .RateLimit
  else
    match e.response with
    | some r =>
      if 500 ≤ r.status then .ServerFault
      else if 400 ≤ r.status ∧ r.status < 500 then .ClientFault
      else .Unknown
    | none => .Unknown

/-- Restatement of the decision table of claim C6 in its own words, used
only to compare against `classify`. -/
def classifySpec (e : ApiFailure) : ErrorClassification :=
  match e.response with
  | none =>
    if e.code = some "ECONNREFUSED" ∨ e.code = some "ENOTFOUND" ∨
       e.code = some "ENETUNREACH" ∨
       e.message.any (fun m => includesSubstring m "network") = true
    then .Network else .Unknown
  | some r =>
    if r.status = 401 ∨ r.status = 403 then .Authentication
    else if r.status = 429 then .RateLimit
    else if 500 ≤ r.status then .ServerFault
    else if 400 ≤ r.status then .ClientFault
    else .Unknown

/-! ## Configuration validator (src/src/services/configurationManager.ts) -/

inductive IssueSeverity where
  | error
  | warning
deriving DecidableEq, Repr

structure ConfigIssue where
  field : String
  message : String
  severity : IssueSeverity
deriving DecidableEq, Repr

structure AIConfig where
  apiKey : String
  model : String
  maxTokens : Int
  temperature : Rat
deriving DecidableEq, Repr

structure ValidationResult where
  isValid : Bool
  errors : List ConfigIssue
  warnings : List ConfigIssue
deriving DecidableEq, Repr

/-- ConfigurationManager.isValidApiKeyFormat: length at least 20 and the
sk- regular-expression anchor at the start. -/
def isValidApiKeyFormat (apiKey : String) : Bool :=
  decide (20 ≤ strLength apiKey) && strIsPrefixOf "sk-" apiKey

/-- ConfigurationManager.validateConfiguration: the five checks are applied
in source order onto one issue list; isValid holds iff no error-severity
issue was pushed; errors and warnings are the severity-filtered lists. -/
def validateConfiguration (c : AIConfig) : ValidationResult :=
  let issues : List ConfigIssue :=
    (if strTrim c.apiKey = "" then
       [⟨"apiKey", "API Key is required", .error⟩]
     else if ¬ (isValidApiKeyFormat c.apiKey = true) then
       [⟨"apiKey", "API Key format appears invalid", .warning⟩]
     else [])
    ++ (if c.model ≠ "deepseek-coder" ∧ c.model ≠ "deepseek-chat" then
         [⟨"model", "Invalid model selected", .error⟩]
       else [])
    ++ (if c.maxTokens < 100 ∨ 8192 < c.maxTokens then
         [⟨"maxTokens", "Max tokens must be between 100 and 8192", .error⟩]
       else [])
    ++ (if c.temperature < 0 ∨ 2 < c.temperature then
         [⟨"temperature", "Temperature must be between 0 and 2", .error⟩]
       else [])
    ++ (if 4096 < c.maxTokens then
         [⟨"maxTokens", "High token count may impact performance", .warning⟩]
       else [])
  { isValid := !(issues.any (fun i => i.severity == .error))
    errors := issues.filter (fun i => i.severity == .error)
    warnings := issues.filter (fun i => i.severity == .warning) }

/-! ## DeepSeek request and response model (src/src/types/deepseek.ts) -/

structure DeepSeekMessage where
  role : String
  content : String
deriving DecidableEq, Repr

structure DeepSeekRequest where
  model : String
  messages : List DeepSeekMessage
  max_tokens : Option Int := none
  temperature : Option Rat := none
  top_p : Option Rat := none
  frequency_penalty : Option Rat := none
  presence_penalty : Option Rat := none
  stream : Option Bool := none
deriving DecidableEq, Repr

structure DeepSeekChoice where
  index : Nat
  message : DeepSeekMessage
  finish_reason : String
deriving DecidableEq, Repr

structure DeepSeekUsage where
  prompt_tokens : Nat
  completion_tokens : Nat
  total_tokens : Nat
deriving DecidableEq, Repr

structure DeepSeekResponse where
  id : String
  object : String
  created : Nat
  model : String
  /-- Option models a runtime payload whose choices field may be absent,
  which parseCompletionResponse and friends defend against. -/
  choices : Option (List DeepSeekChoice)
  usage : DeepSeekUsage
deriving DecidableEq, Repr

/-! ## Response interceptor (DeepSeekClient.handleApiError)

The axios response interceptor installed in initializeHttpClient routes
every rejected response through handleApiError, which always throws a fresh
plain Error whose message is chosen from the status.  The error that
reaches the catch in makeRequest is therefore that plain Error: it has no
response, no request, no code, only a message. -/

/-- The message of the Error thrown by DeepSeekClient.handleApiError.
The 503 and 403 statuses fall to the default branch of the switch, which
uses the nested API error message, with the JavaScript or-fallback treating
an empty string as absent. -/
def interceptMessage (e : ApiFailure) : String :=
  match e.response with
  | some r =>
    if r.status = 401 then "Invalid API key. Please check your configuration."
    else if r.status = 429 then "Rate limit exceeded. Please try again later."
    else if r.status = 500 then "DeepSeek API server error. Please try again later."
    else "API Error: " ++
      (match r.data.errorMessage with
       | some m => if m = "" then "Unknown error" else m
       | none => "Unknown error")
  | none =>
    if e.hasRequest then "Network error. Please check your internet connection."
    else "Request error: " ++ e.message.getD "undefined"

/-- The plain Error produced by the interceptor: a bare message with no
response, request or code attached. -/
def interceptError (e : ApiFailure) : ApiFailure :=
  { response := none, hasRequest := false, code := none,
    message := some (interceptMessage e) }

/-! ## Retry/backoff engine (DeepSeekClient.makeRequest and
handleRequestError) -/

/-- DeepSeekClient.shouldRetry: any error without a response retries
(treated as a network error); with a response, retry on server errors and
rate limiting. -/
def shouldRetry (e : ApiFailure) : Bool :=
  match e.response with
  | none => true
  | some r => decide (500 ≤ r.status) || decide (r.status = 429)

def MAX_RETRIES : Nat := 3

/-- One network attempt of the remote service, indexed by how many attempts
have been issued so far for this logical call. -/
inductive WireOutcome where
  | ok (resp : DeepSeekResponse)
  | err (e : ApiFailure)

/-- State threaded through makeRequest: the retryCount Map (keyed by the
request id, modelled as the pair of the endpoint and the Date.now
timestamp that the source concatenates into a string), the current clock in
milliseconds, and two ghost observers recording how many attempts were
issued and which backoff delays were awaited. -/
structure EngineState where
  retryCount : List ((String × Nat) × Nat)
  now : Nat
  attempts : Nat
  delays : List Nat
deriving DecidableEq, Repr

inductive EngineResult where
  | success (resp : DeepSeekResponse) (st : EngineState)
  | failure (e : ApiFailure) (st : EngineState)
  | outOfFuel (st : EngineState)
deriving DecidableEq, Repr

/-- DeepSeekClient.makeRequest fused with handleRequestError.  The
requestId is endpoint plus Date.now(); a failed post is first transformed
by the response interceptor (handleApiError) and then handed to
handleRequestError, which retries with a 2 to the currentRetries seconds
backoff while shouldRetry holds and currentRetries is below MAX_RETRIES,
and otherwise erases the bookkeeping entry and rethrows.  The recursive
call re-enters makeRequest after the delay, at which point the clock has
advanced.  `fuel` bounds the recursion depth of the embedding only; the
source recursion is unbounded. -/
def makeRequest (fuel : Nat) (endpoint : String) (data : DeepSeekRequest)
    (send : Nat → WireOutcome) (st : EngineState) : EngineResult :=
  match fuel with
  | 0 => .outOfFuel st
  | Nat.succ fuel' =>
    let requestId : String × Nat := (endpoint, st.now)
    match send st.attempts with
    | .ok resp =>
      .success resp
        { st with attempts := st.attempts + 1,
                  retryCount := mapErase st.retryCount requestId }
    | .err wireError =>
      let e := interceptError wireError
      let st1 := { st with attempts := st.attempts + 1 }
      let currentRetries := (mapLookup st1.retryCount requestId).getD 0
      if shouldRetry e && decide (currentRetries < MAX_RETRIES) then
        let delay := 2 ^ currentRetries * 1000
        makeRequest fuel' endpoint data send
          { st1 with
            retryCount := mapInsert st1.retryCount requestId (currentRetries + 1),
            now := st1.now + delay,
            delays := st1.delays ++ [delay] }
      else
        .failure e { st1 with retryCount := mapErase st1.retryCount requestId }

def engineResultState : EngineResult → EngineState
  | .success _ st => st
  | .failure _ st => st
  | .outOfFuel st => st

def initialEngineState : EngineState :=
  { retryCount := [], now := 0, attempts := 0, delays := [] }

/-! ## Response parsers (DeepSeekClient.parseCompletionResponse,
parseExplanationResponse, parseRefactorResponse) -/

def parseCompletionResponse (r : DeepSeekResponse) : List String :=
  match r.choices with
  | none => []
  | some [] => []
  | some (c :: _) =>
    ((((splitLines c.message.content).map (fun line => strTrim line)).filter
      (fun line => decide (0 < strLength line))).take 5)

def parseExplanationResponse (r : DeepSeekResponse) : String :=
  match r.choices with
  | none => "No explanation available."
  | some [] => "No explanation available."
  | some (c :: _) => strTrim c.message.content

def parseRefactorResponse (r : DeepSeekResponse) : String :=
  match r.choices with
  | none => "No refactoring suggestions available."
  | some [] => "No refactoring suggestions available."
  | some (c :: _) => strTrim c.message.content

/-! ## Request orchestrator (DeepSeekClient public operations) -/

structure CodeCompletionRequest where
  context : String
  language : String
  maxSuggestions : Option Nat
deriving DecidableEq, Repr

structure CodeExplanationRequest where
  code : String
  language : String
  includeExamples : Option Bool
deriving DecidableEq, Repr

inductive RefactorType where
  | optimize
  | readability
  | performance
  | security
deriving DecidableEq, Repr

structure CodeRefactorRequest where
  code : String
  language : String
  refactorType : RefactorType
deriving DecidableEq, Repr

/-- DeepSeekClient.buildCompletionPrompt; the maxSuggestions or-default
treats the JavaScript falsy zero like absence. -/
def buildCompletionPrompt (r : CodeCompletionRequest) : String :=
  let n := match r.maxSuggestions with
    | some k => if k = 0 then 3 else k
    | none => 3
  "Language: " ++ r.language ++ "\n\nContext:\n```" ++ r.language ++ "\n" ++
    r.context ++ "\n```\n\nPlease provide " ++ toString n ++
    " relevant code completion suggestions for the cursor position at the end of the context. Return only the code suggestions, one per line."

def buildExplanationPrompt (r : CodeExplanationRequest) : String :=
  "Language: " ++ r.language ++ "\n\nCode to explain:\n```" ++ r.language ++
    "\n" ++ r.code ++ "\n```\n\nPlease provide a clear and concise explanation of what this code does" ++
    (if r.includeExamples.getD false then ", including examples if helpful" else "") ++ "."

def refactorInstruction : RefactorType → String
  | .optimize => "Optimize this code for better performance"
  | .readability => "Improve code readability and maintainability"
  | .performance => "Optimize this code for maximum performance"
  | .security => "Improve code security and fix potential vulnerabilities"

def buildRefactorPrompt (r : CodeRefactorRequest) : String :=
  "Language: " ++ r.language ++ "\n\nCurrent code:\n```" ++ r.language ++
    "\n" ++ r.code ++ "\n```\n\nTask: " ++ refactorInstruction r.refactorType ++
    "\n\nPlease provide the refactored code with comments explaining the improvements made."

/-- The request built by generateCompletion: completions cap max_tokens at
1024 on top of the configured value. -/
def buildCompletionRequest (c : AIConfig) (r : CodeCompletionRequest) :
    DeepSeekRequest :=
  { model := c.model,
    messages :=
      [⟨"system", "You are a helpful coding assistant. Provide code completions based on the context."⟩,
       ⟨"user", buildCompletionPrompt r⟩],
    max_tokens := some (min c.maxTokens 1024),
    temperature := some c.temperature }

def buildExplanationRequest (c : AIConfig) (r : CodeExplanationRequest) :
    DeepSeekRequest :=
  { model := c.model,
    messages :=
      [⟨"system", "You are a helpful coding assistant. Explain code clearly and concisely."⟩,
       ⟨"user", buildExplanationPrompt r⟩],
    max_tokens := some c.maxTokens,
    temperature := some c.temperature }

def buildRefactorRequest (c : AIConfig) (r : CodeRefactorRequest) :
    DeepSeekRequest :=
  { model := c.model,
    messages :=
      [⟨"system", "You are a helpful coding assistant. Refactor code to improve quality while maintaining functionality."⟩,
       ⟨"user", buildRefactorPrompt r⟩],
    max_tokens := some c.maxTokens,
    temperature := some c.temperature }

def buildTestRequest (c : AIConfig) : DeepSeekRequest :=
  { model := c.model,
    messages := [⟨"user", "Hello, this is a connection test."⟩],
    max_tokens := some 10,
    temperature := some 0 }

inductive CompletionOutcome where
  | ok (suggestions : List String) (st : EngineState)
  | err (message : String) (st : EngineState)
  | outOfFuel (st : EngineState)
deriving DecidableEq, Repr

inductive TextOutcome where
  | ok (text : String) (st : EngineState)
  | err (message : String) (st : EngineState)
  | outOfFuel (st : EngineState)
deriving DecidableEq, Repr

inductive ProbeOutcome where
  | result (connected : Bool) (st : EngineState)
  | outOfFuel (st : EngineState)
deriving DecidableEq, Repr

/-- DeepSeekClient.generateCompletion: build the request, run it through
makeRequest, parse the response; the catch block replaces any failure with
the fixed Error message.  No configuration validation happens anywhere on
this path. -/
def generateCompletion (fuel : Nat) (c : AIConfig) (r : CodeCompletionRequest)
    (send : Nat → WireOutcome) (st : EngineState) : CompletionOutcome :=
  match makeRequest fuel "/chat/completions" (buildCompletionRequest c r) send st with
  | .success resp st' => .ok (parseCompletionResponse resp) st'
  | .failure _ st' => .err "Failed to generate code completion" st'
  | .outOfFuel st' => .outOfFuel st'

def explainCode (fuel : Nat) (c : AIConfig) (r : CodeExplanationRequest)
    (send : Nat → WireOutcome) (st : EngineState) : TextOutcome :=
  match makeRequest fuel "/chat/completions" (buildExplanationRequest c r) send st with
  | .success resp st' => .ok (parseExplanationResponse resp) st'
  | .failure _ st' => .err "Failed to explain code" st'
  | .outOfFuel st' => .outOfFuel st'

def refactorCode (fuel : Nat) (c : AIConfig) (r : CodeRefactorRequest)
    (send : Nat → WireOutcome) (st : EngineState) : TextOutcome :=
  match makeRequest fuel "/chat/completions" (buildRefactorRequest c r) send st with
  | .success resp st' => .ok (parseRefactorResponse resp) st'
  | .failure _ st' => .err "Failed to refactor code" st'
  | .outOfFuel st' => .outOfFuel st'

/-- DeepSeekClient.testConnection swallows any failure and reports false. -/
def testConnection (fuel : Nat) (c : AIConfig)
    (send : Nat → WireOutcome) (st : EngineState) : ProbeOutcome :=
  match makeRequest fuel "/chat/completions" (buildTestRequest c) send st with
  | .success _ st' => .result true st'
  | .failure _ st' => .result false st'
  | .outOfFuel st' => .outOfFuel st'

def completionOutcomeState : CompletionOutcome → EngineState
  | .ok _ st => st
  | .err _ st => st
  | .outOfFuel st => st

def textOutcomeState : TextOutcome → EngineState
  | .ok _ st => st
  | .err _ st => st
  | .outOfFuel st => st

def probeOutcomeState : ProbeOutcome → EngineState
  | .result _ st => st
  | .outOfFuel st => st

/-! ## Notification throttle (src/src/utils/logger.ts, ErrorHandler)

ErrorHandler.handleError counts occurrences per error key in the
process-wide errorCount Map and shows the user a notification only while
the pre-increment count is below maxErrorsPerType; every occurrence also
schedules an unconditional deletion of the key five minutes later via
setTimeout. -/

/-- The polymorphic error value handled by ErrorHandler: a literal string,
an Error instance, or a plain object carrying an optional nested API error
message and an optional message attribute. -/
inductive ThrownValue where
  | str (s : String)
  | errorInstance (message : String)
  | obj (responseErrorMessage : Option String) (message : Option String)
deriving DecidableEq, Repr

/-- The message-attribute-or-fallback tail of getErrorMessage; the
JavaScript truthiness test skips an empty string. -/
def messageAttrOrFallback (msg : Option String) : String :=
  match msg with
  | some m => if m = "" then "An unexpected error occurred" else m
  | none => "An unexpected error occurred"

/-- ErrorHandler.getErrorMessage extraction precedence: literal string,
then Error instance message, then the nested response.data.error.message
(when truthy), then the message attribute (when truthy), then the fixed
fallback. -/
def getErrorMessage (e : ThrownValue) : String :=
  match e with
  | .str s => s
  | .errorInstance m => m
  | .obj nested msg =>
    match nested with
    | some n => if n = "" then messageAttrOrFallback msg else n
    | none => messageAttrOrFallback msg

/-- ErrorHandler.getErrorKey: context, a colon, and the first 50 characters
of the extracted message. -/
def getErrorKey (e : ThrownValue) (context : String) : String :=
  context ++ ":" ++ strTake 50 (getErrorMessage e)

def maxErrorsPerType : Nat := 5

def fiveMinutesMs : Nat := 5 * 60 * 1000

/-- The counting core of ErrorHandler.handleError: read the pre-increment
count, store the incremented count, and notify iff showUser is set and the
pre-increment count is below maxErrorsPerType.  The setTimeout scheduling
is handled by the timer layer below. -/
def handleErrorStep (table : List (String × Nat)) (e : ThrownValue)
    (context : String) (showUser : Bool) : List (String × Nat) × Bool :=
  let errorKey := getErrorKey e context
  let currentCount := (mapLookup table errorKey).getD 0
  (mapInsert table errorKey (currentCount + 1),
   showUser && decide (currentCount < maxErrorsPerType))

/-- Iterated occurrences of the same error and context, without the timer
layer: returns the table after k occurrences and whether the k-th
occurrence notified the user. -/
def runOccurrences (table : List (String × Nat)) (e : ThrownValue)
    (context : String) : Nat → List (String × Nat) × Bool
  | 0 => (table, false)
  | Nat.succ n => handleErrorStep (runOccurrences table e context n).1 e context true

/-- Timer layer: the table plus the pending setTimeout deletions, each a
fire time and the key it will delete, in scheduling order. -/
structure ThrottleState where
  table : List (String × Nat)
  timers : List (Nat × String)
deriving DecidableEq, Repr

/-- Walk the pending timers in scheduling order: a timer due at or before
the given instant fires and unconditionally deletes its key from the table;
the others stay pending.  Returns the resulting table and the remaining
timers. -/
def processTimers (now : Nat) (table : List (String × Nat)) :
    List (Nat × String) → List (String × Nat) × List (Nat × String)
  | [] => (table, [])
  | timer :: rest =>
    if timer.1 ≤ now then processTimers now (mapErase table timer.2) rest
    else
      let r := processTimers now table rest
      (r.1, timer :: r.2)

/-- Run every timer due at or before the given instant. -/
def fireDueTimers (st : ThrottleState) (now : Nat) : ThrottleState :=
  { table := (processTimers now st.table st.timers).1,
    timers := (processTimers now st.table st.timers).2 }

/-- One call of ErrorHandler.handleError at the given instant: the event
loop first runs any due timers, then the handler increments the count and
schedules the deletion of the key five minutes later. -/
def throttleOccurrence (st : ThrottleState) (now : Nat) (e : ThrownValue)
    (context : String) : ThrottleState × Bool :=
  let st' := fireDueTimers st now
  let step := handleErrorStep st'.table e context true
  ({ table := step.1,
     timers := st'.timers ++ [(now + fiveMinutesMs, getErrorKey e context)] },
   step.2)

/-- Process a trace of timed occurrences, each the instant, the thrown
value and the context, in order. -/
def runThrottleTrace (st : ThrottleState) :
    List (Nat × ThrownValue × String) → ThrottleState
  | [] => st
  | (t, e, c) :: rest => runThrottleTrace (throttleOccurrence st t e c).1 rest

/-- The table as observed at instant t: all occurrences at or before t have
been processed and all timers due at or before t have fired. -/
def observeTable (trace : List (Nat × ThrownValue × String)) (t : Nat) :
    List (String × Nat) :=
  (fireDueTimers
    (runThrottleTrace ⟨[], []⟩ (trace.filter (fun ev => decide (ev.1 ≤ t)))) t).table

/-! ## Concrete fixtures used by the evaluations below -/

def dummyRequest : DeepSeekRequest :=
  { model := "deepseek-coder", messages := [] }

/-- A wire failure carrying HTTP status 500, as axios rejects it. -/
def serverFault500 : ApiFailure :=
  { response := some ⟨500, ⟨none⟩⟩, hasRequest := true, code := none,
    message := none }

/-- A wire failure carrying HTTP status 401. -/
def authFailure401 : ApiFailure :=
  { response := some ⟨401, ⟨none⟩⟩, hasRequest := true, code := none,
    message := none }

/-- A wire failure carrying HTTP status 403. -/
def authFailure403 : ApiFailure :=
  { response := some ⟨403, ⟨none⟩⟩, hasRequest := true, code := none,
    message := none }

def sampleResponse : DeepSeekResponse :=
  ⟨"id", "chat.completion", 0, "deepseek-coder",
    some [⟨0, ⟨"assistant", "a\nb"⟩, "stop"⟩], ⟨1, 1, 2⟩⟩

/-- A send function that fails twice with a server fault and then
succeeds. -/
def failTwiceThenSucceed : Nat → WireOutcome :=
  fun n => if n < 2 then .err serverFault500 else .ok sampleResponse

/-- A configuration with an empty apiKey, hence isValid false. -/
def invalidConfig : AIConfig :=
  { apiKey := "", model := "deepseek-coder", maxTokens := 2048,
    temperature := 1 }

def sampleCompletionRequest : CodeCompletionRequest :=
  { context := "def f(x):", language := "python", maxSuggestions := some 3 }

/-! ## Theorems -/

/-- C6: classify is a total function over failures with first-match-wins
decision order: a failure with no response and code ECONNREFUSED (or
ENOTFOUND, ENETUNREACH, or a message mentioning "network") maps to Network;
status 401 or 403 to Authentication; status 429 to RateLimit; any status at
least 500 (such as 503) to ServerFault; any remaining 4xx (such as 418) to
ClientFault; and any other input to Unknown.  Totality is witnessed by
classify being a Lean function; the decision table is proved by agreement
with classifySpec, the literal restatement of the decision order of the
claim. -/
theorem classify_implements_decision_table (e : ApiFailure) :
    classify e = classifySpec e := by
  unfold classify classifySpec isNetworkError isAuthenticationError isRateLimitError
  cases h : e.response with
  | none =>
    cases hm : e.message <;>
      simp [h, hm, Option.any, Bool.or_eq_true, decide_eq_true_eq, or_assoc]
  | some r =>
    simp only [h, Option.isNone_some, Bool.false_and, Bool.false_eq_true,
      if_false, Bool.or_eq_true, decide_eq_true_eq]
    split_ifs <;> first | rfl | omega

/-- C7: for every configuration with maxTokens below 100 or above 8192,
validateConfiguration returns a result with isValid false containing an
error-severity issue with field maxTokens; for maxTokens 4096 no
maxTokens warning is produced, while for maxTokens 4097 a performance
warning with field maxTokens is produced that does not affect isValid
(isValid at 4097 equals isValid of the otherwise-identical configuration
at 4096); and for maxTokens beyond 8192 the warning is emitted in addition
to the out-of-range error. -/
theorem validator_maxTokens_range_and_warning (c : AIConfig) :
    ((c.maxTokens < 100 ∨ 8192 < c.maxTokens) →
      (validateConfiguration c).isValid = false ∧
      ∃ i ∈ (validateConfiguration c).errors, i.field = "maxTokens")
    ∧ (∀ w ∈ (validateConfiguration { c with maxTokens := 4096 }).warnings,
        w.field ≠ "maxTokens")
    ∧ (∃ w ∈ (validateConfiguration { c with maxTokens := 4097 }).warnings,
        w.field = "maxTokens")
    ∧ (validateConfiguration { c with maxTokens := 4097 }).isValid =
        (validateConfiguration { c with maxTokens := 4096 }).isValid
    ∧ (8192 < c.maxTokens →
        (∃ i ∈ (validateConfiguration c).errors, i.field = "maxTokens") ∧
        ∃ w ∈ (validateConfiguration c).warnings, w.field = "maxTokens") := by
  refine ⟨?_, ?_, ?_, ?_, ?_⟩
  · intro h
    constructor
    · simp [validateConfiguration, List.any_append, h]
    · refine ⟨⟨"maxTokens", "Max tokens must be between 100 and 8192", .error⟩, ?_, rfl⟩
      simp [validateConfiguration, List.filter_append, List.mem_append,
        List.mem_filter, h]
  · intro w hw
    simp [validateConfiguration, List.filter_append, List.mem_append,
      List.mem_filter] at hw
    rcases hw with ⟨hmem, hsev⟩ | ⟨⟨_, rfl⟩, h2⟩ | ⟨⟨_, rfl⟩, h2⟩
    · split_ifs at hmem <;> simp_all
    · simp at h2
    · simp at h2
  · refine ⟨⟨"maxTokens", "High token count may impact performance", .warning⟩, ?_, rfl⟩
    simp [validateConfiguration, List.filter_append, List.mem_append,
      List.mem_filter]
  · have hbe : (IssueSeverity.warning == IssueSeverity.error) = false := rfl
    simp [validateConfiguration, List.any_append, hbe]
  · intro h
    have h1 : c.maxTokens < 100 ∨ 8192 < c.maxTokens := Or.inr h
    have h2 : (4096 : Int) < c.maxTokens := by omega
    constructor
    · refine ⟨⟨"maxTokens", "Max tokens must be between 100 and 8192", .error⟩, ?_, rfl⟩
      simp [validateConfiguration, List.filter_append, List.mem_append,
        List.mem_filter, h1]
    · refine ⟨⟨"maxTokens", "High token count may impact performance", .warning⟩, ?_, rfl⟩
      simp [validateConfiguration, List.filter_append, List.mem_append,
        List.mem_filter, h2]

/-- Witness for C7 at a configuration with maxTokens 50: the validator
rejects it with a maxTokens error. -/
theorem validator_maxTokens_range_and_warning_witness :
    (validateConfiguration
      { apiKey := "sk-aaaaaaaaaaaaaaaaaaaaa", model := "deepseek-coder",
        maxTokens := 50, temperature := 1 }).isValid = false ∧
    ∃ i ∈ (validateConfiguration
      { apiKey := "sk-aaaaaaaaaaaaaaaaaaaaa", model := "deepseek-coder",
        maxTokens := 50, temperature := 1 }).errors, i.field = "maxTokens" :=
  (validator_maxTokens_range_and_warning
    { apiKey := "sk-aaaaaaaaaaaaaaaaaaaaa", model := "deepseek-coder",
      maxTokens := 50, temperature := 1 }).1 (Or.inl (by norm_num))

/-- C10: for every model response whose choices sequence is absent or
empty, the completion parser returns the empty list while the explanation
and refactor parsers return their fixed sentinel strings; when choices are
present, the completion parser returns at most 5 elements, each a non-empty
trimmed line of the content of the first choice. -/
theorem parsers_empty_choices_and_completion_shape (r : DeepSeekResponse) :
    ((r.choices = none ∨ r.choices = some []) →
      parseCompletionResponse r = [] ∧
      parseExplanationResponse r = "No explanation available." ∧
      parseRefactorResponse r = "No refactoring suggestions available.")
    ∧ (∀ c rest, r.choices = some (c :: rest) →
        (parseCompletionResponse r).length ≤ 5 ∧
        ∀ s ∈ parseCompletionResponse r, 0 < strLength s ∧
          ∃ line ∈ splitLines c.message.content, s = strTrim line) := by
  constructor
  · rintro (h | h) <;>
      simp [parseCompletionResponse, parseExplanationResponse,
        parseRefactorResponse, h]
  · intro c rest h
    have hp : parseCompletionResponse r =
        ((((splitLines c.message.content).map (fun line => strTrim line)).filter
          (fun line => decide (0 < strLength line))).take 5) := by
      simp [parseCompletionResponse, h]
    constructor
    · rw [hp]
      exact List.length_take_le 5 _
    · intro s hs
      rw [hp] at hs
      have hs1 : s ∈ (((splitLines c.message.content).map
          (fun line => strTrim line)).filter (fun line => decide (0 < strLength line))) :=
        List.take_subset _ _ hs
      obtain ⟨hmap, hpred⟩ := List.mem_filter.mp hs1
      refine ⟨by simpa using hpred, ?_⟩
      obtain ⟨line, hline, hft⟩ := List.mem_map.mp hmap
      exact ⟨line, hline, hft.symm⟩

/-- Witness for C10: a response with absent choices yields the empty
suggestion list and both sentinel strings, and a two-line response yields
at most 5 suggestions. -/
theorem parsers_empty_choices_and_completion_shape_witness :
    (parseCompletionResponse
        ⟨"id", "chat.completion", 0, "deepseek-coder", none, ⟨0, 0, 0⟩⟩ = [] ∧
      parseExplanationResponse
        ⟨"id", "chat.completion", 0, "deepseek-coder", none, ⟨0, 0, 0⟩⟩ =
          "No explanation available." ∧
      parseRefactorResponse
        ⟨"id", "chat.completion", 0, "deepseek-coder", none, ⟨0, 0, 0⟩⟩ =
          "No refactoring suggestions available.")
    ∧ (parseCompletionResponse
        ⟨"id", "chat.completion", 0, "deepseek-coder",
          some [⟨0, ⟨"assistant", "a\nb"⟩, "stop"⟩], ⟨0, 0, 0⟩⟩).length ≤ 5 :=
  ⟨(parsers_empty_choices_and_completion_shape
      ⟨"id", "chat.completion", 0, "deepseek-coder", none, ⟨0, 0, 0⟩⟩).1
      (Or.inl rfl),
   ((parsers_empty_choices_and_completion_shape
      ⟨"id", "chat.completion", 0, "deepseek-coder",
        some [⟨0, ⟨"assistant", "a\nb"⟩, "stop"⟩], ⟨0, 0, 0⟩⟩).2
      ⟨0, ⟨"assistant", "a\nb"⟩, "stop"⟩ [] rfl).1⟩

/-- After k occurrences of the same error and context, starting from a
table in which the derived key is absent, the stored count for that key is
exactly k. -/
theorem runOccurrences_count (tbl : List (String × Nat)) (e : ThrownValue)
    (c : String) (h : mapLookup tbl (getErrorKey e c) = none) :
    ∀ k : Nat, mapLookup (runOccurrences tbl e c k).1 (getErrorKey e c) =
      if k = 0 then none else some k := by
  intro k
  induction k with
  | zero => simpa [runOccurrences] using h
  | succ n ih =>
    simp only [runOccurrences, handleErrorStep]
    rw [mapLookup_mapInsert_self, ih]
    cases n with
    | zero => simp
    | succ m => simp

/-- C8: for any fixed key within a single 5-minute window (no expiry
firing), the throttle allows user-facing notification for the first 5
occurrences (pre-increment counts 0 through 4, all below the threshold
of 5) and denies it from the 6th occurrence onward; the key is the context,
a colon, and the first 50 characters of the extracted message, and each
occurrence increments the stored count, creating the record with count 1
when absent. -/
theorem throttle_allows_first_five_denies_sixth
    (tbl : List (String × Nat)) (e : ThrownValue) (c : String)
    (h : mapLookup tbl (getErrorKey e c) = none) :
    getErrorKey e c = c ++ ":" ++ strTake 50 (getErrorMessage e)
    ∧ ∀ k : Nat, 0 < k →
        (mapLookup (runOccurrences tbl e c k).1 (getErrorKey e c) = some k
        ∧ ((runOccurrences tbl e c k).2 = true ↔ k ≤ maxErrorsPerType)) := by
  refine ⟨rfl, ?_⟩
  intro k hk
  constructor
  · rw [runOccurrences_count tbl e c h k]
    simp [Nat.pos_iff_ne_zero.mp hk]
  · cases k with
    | zero => omega
    | succ n =>
      simp only [runOccurrences, handleErrorStep]
      rw [runOccurrences_count tbl e c h n]
      cases n with
      | zero => simp [maxErrorsPerType]
      | succ m =>
        simp only [Nat.succ_ne_zero, if_false, Option.getD_some, Bool.true_and,
          decide_eq_true_eq, maxErrorsPerType]
        omega

/-- Witness for C8: from an empty table, the 6th occurrence of the same
error stores count 6 and is not notified because 6 exceeds the threshold. -/
theorem throttle_allows_first_five_denies_sixth_witness :
    mapLookup (runOccurrences [] (ThrownValue.str "boom") "completion" 6).1
      (getErrorKey (ThrownValue.str "boom") "completion") = some 6
    ∧ ((runOccurrences [] (ThrownValue.str "boom") "completion" 6).2 = true ↔
        6 ≤ maxErrorsPerType) :=
  (throttle_allows_first_five_denies_sixth [] (ThrownValue.str "boom")
    "completion" rfl).2 6 (by norm_num)

/-- Every error that leaves the response interceptor has no response
attached, so shouldRetry always accepts it. -/
theorem shouldRetry_interceptError (e : ApiFailure) :
    shouldRetry (interceptError e) = true := rfl

/-- Key divergence lemma: for a send function that fails on every attempt
(with any wire failure whatsoever), makeRequest exhausts any fuel bound,
issuing one attempt and one backoff delay per fuel unit and never reaching
a terminal failure.  The cause is twofold: the interceptor strips the
response, so shouldRetry always holds, and every recursive attempt derives
a fresh requestId from the advanced clock, so currentRetries is always
read as 0 and the MAX_RETRIES comparison never trips.  The hypothesis
states that every bookkeeping key was created at an earlier instant than
the current clock, which the initial state satisfies vacuously. -/
theorem makeRequest_alwaysFailing_diverges (wireErr : ApiFailure)
    (endpoint : String) (data : DeepSeekRequest) :
    ∀ (fuel : Nat) (st : EngineState),
      (∀ k v, (k, v) ∈ st.retryCount → k.2 < st.now) →
      ∃ st' : EngineState,
        makeRequest fuel endpoint data (fun _ => WireOutcome.err wireErr) st =
          .outOfFuel st'
        ∧ st'.attempts = st.attempts + fuel
        ∧ st'.delays.length = st.delays.length + fuel := by
  intro fuel
  induction fuel with
  | zero => intro st _; exact ⟨st, rfl, by omega, by omega⟩
  | succ n ih =>
    intro st hst
    have hfresh : mapLookup st.retryCount (endpoint, st.now) = none := by
      apply mapLookup_eq_none_of_forall_ne
      intro k v hkv hk
      have hlt := hst k v hkv
      rw [hk] at hlt
      simp at hlt
    have hinv : ∀ k v,
        (k, v) ∈ mapInsert st.retryCount (endpoint, st.now) (0 + 1) →
        k.2 < st.now + 2 ^ 0 * 1000 := by
      intro k v hkv
      rcases mem_mapInsert hkv with hm | hm
      · have := hst k v hm
        omega
      · rw [hm]
        simp
    obtain ⟨st', heq, hatt, hdel⟩ := ih
      { retryCount := mapInsert st.retryCount (endpoint, st.now) (0 + 1),
        now := st.now + 2 ^ 0 * 1000,
        attempts := st.attempts + 1,
        delays := st.delays ++ [2 ^ 0 * 1000] } hinv
    refine ⟨st', ?_, by simp at hatt ⊢; omega, by simp at hdel ⊢; omega⟩
    rw [← heq]
    simp only [makeRequest, shouldRetry_interceptError, hfresh]
    rfl

/-- C1 (code bug): the claim says a send function that always fails with a
retryable classification reaches the terminal Failed state after at most 3
retries (4 attempts).  The code instead never reaches a terminal state: for
every fuel bound the engine is still retrying, having issued one attempt
and one backoff delay per fuel unit, because each recursive attempt derives
a fresh requestId from the advanced clock and the retry counter therefore
never exceeds 1. -/
theorem retry_engine_never_reaches_terminal_failure_on_server_fault :
    classify serverFault500 = ErrorClassification.ServerFault
    ∧ ∀ fuel : Nat, ∃ st' : EngineState,
        makeRequest fuel "/chat/completions" dummyRequest
          (fun _ => WireOutcome.err serverFault500) initialEngineState =
          .outOfFuel st'
        ∧ st'.attempts = fuel ∧ st'.delays.length = fuel := by
  refine ⟨rfl, ?_⟩
  intro fuel
  obtain ⟨st', heq, h1, h2⟩ := makeRequest_alwaysFailing_diverges serverFault500
    "/chat/completions" dummyRequest fuel initialEngineState
    (by intro k v h; simp [initialEngineState] at h)
  exact ⟨st', heq, by simpa [initialEngineState] using h1,
    by simpa [initialEngineState] using h2⟩

/-- C3 (code bug): the claim says an Authentication or ClientFault failure
is never retried (one attempt, no delay).  shouldRetry does reject a raw
401 failure, but the response interceptor replaces every failure with a
plain Error carrying no response before shouldRetry sees it, so the engine
treats a 401 like a network error and retries without bound, inserting a
backoff delay per attempt. -/
theorem retry_engine_retries_authentication_failures_forever :
    classify authFailure401 = ErrorClassification.Authentication
    ∧ shouldRetry authFailure401 = false
    ∧ shouldRetry (interceptError authFailure401) = true
    ∧ ∀ fuel : Nat, ∃ st' : EngineState,
        makeRequest fuel "/chat/completions" dummyRequest
          (fun _ => WireOutcome.err authFailure401) initialEngineState =
          .outOfFuel st'
        ∧ st'.attempts = fuel ∧ st'.delays.length = fuel := by
  refine ⟨rfl, rfl, rfl, ?_⟩
  intro fuel
  obtain ⟨st', heq, h1, h2⟩ := makeRequest_alwaysFailing_diverges authFailure401
    "/chat/completions" dummyRequest fuel initialEngineState
    (by intro k v h; simp [initialEngineState] at h)
  exact ⟨st', heq, by simpa [initialEngineState] using h1,
    by simpa [initialEngineState] using h2⟩

/-- C2 (code bug): with a send function that fails twice with a server
fault and then succeeds, execution does succeed on the third attempt, but
the two backoff delays are 1 second and 1 second (not 1 then 2: the second
attempt looks up a fresh requestId, so its retry counter is again 0), and
the bookkeeping entries created for the first two attempt ids survive the
terminal success. -/
theorem retry_engine_two_failures_then_success_run :
    makeRequest 10 "/chat/completions" dummyRequest failTwiceThenSucceed
      initialEngineState =
    EngineResult.success sampleResponse
      { retryCount := [(("/chat/completions", 0), 1), (("/chat/completions", 1000), 1)],
        now := 2000, attempts := 3, delays := [1000, 1000] } := by
  rfl

/-- The ghost attempt counter never decreases through makeRequest. -/
theorem makeRequest_attempts_mono (fuel : Nat) (endpoint : String)
    (data : DeepSeekRequest) (send : Nat → WireOutcome) (st : EngineState) :
    st.attempts ≤ (engineResultState (makeRequest fuel endpoint data send st)).attempts := by
  induction fuel generalizing st with
  | zero => simp [makeRequest, engineResultState]
  | succ n ih =>
    simp only [makeRequest]
    cases hs : send st.attempts with
    | ok resp => simp [hs, engineResultState]
    | err e =>
      simp only [hs]
      split
      · refine le_trans ?_ (ih _)
        show st.attempts ≤ st.attempts + 1
        omega
      · simp [engineResultState]

/-- With positive fuel, makeRequest issues at least one attempt. -/
theorem makeRequest_attempts_step (fuel : Nat) (endpoint : String)
    (data : DeepSeekRequest) (send : Nat → WireOutcome) (st : EngineState)
    (h : 0 < fuel) :
    st.attempts + 1 ≤ (engineResultState (makeRequest fuel endpoint data send st)).attempts := by
  cases fuel with
  | zero => omega
  | succ n =>
    simp only [makeRequest]
    cases hs : send st.attempts with
    | ok resp => simp [hs, engineResultState]
    | err e =>
      simp only [hs]
      split
      · refine le_trans ?_ (makeRequest_attempts_mono n endpoint data send _)
        show st.attempts + 1 ≤ st.attempts + 1
        omega
      · simp [engineResultState]

theorem completionOutcomeState_generateCompletion (fuel : Nat) (c : AIConfig)
    (r : CodeCompletionRequest) (send : Nat → WireOutcome) (st : EngineState) :
    completionOutcomeState (generateCompletion fuel c r send st) =
      engineResultState
        (makeRequest fuel "/chat/completions" (buildCompletionRequest c r) send st) := by
  unfold generateCompletion
  cases makeRequest fuel "/chat/completions" (buildCompletionRequest c r) send st <;> rfl

theorem textOutcomeState_explainCode (fuel : Nat) (c : AIConfig)
    (r : CodeExplanationRequest) (send : Nat → WireOutcome) (st : EngineState) :
    textOutcomeState (explainCode fuel c r send st) =
      engineResultState
        (makeRequest fuel "/chat/completions" (buildExplanationRequest c r) send st) := by
  unfold explainCode
  cases makeRequest fuel "/chat/completions" (buildExplanationRequest c r) send st <;> rfl

theorem textOutcomeState_refactorCode (fuel : Nat) (c : AIConfig)
    (r : CodeRefactorRequest) (send : Nat → WireOutcome) (st : EngineState) :
    textOutcomeState (refactorCode fuel c r send st) =
      engineResultState
        (makeRequest fuel "/chat/completions" (buildRefactorRequest c r) send st) := by
  unfold refactorCode
  cases makeRequest fuel "/chat/completions" (buildRefactorRequest c r) send st <;> rfl

theorem probeOutcomeState_testConnection (fuel : Nat) (c : AIConfig)
    (send : Nat → WireOutcome) (st : EngineState) :
    probeOutcomeState (testConnection fuel c send st) =
      engineResultState
        (makeRequest fuel "/chat/completions" (buildTestRequest c) send st) := by
  unfold testConnection
  cases makeRequest fuel "/chat/completions" (buildTestRequest c) send st <;> rfl

/-- C4 counterexample: a configuration with an empty apiKey validates to
isValid false, yet generateCompletion still issues a network attempt (one
request, not zero), because no operation consults the validator. -/
theorem invalid_configuration_does_not_block_requests :
    (validateConfiguration invalidConfig).isValid = false
    ∧ (completionOutcomeState (generateCompletion 5 invalidConfig
        sampleCompletionRequest (fun _ => WireOutcome.ok sampleResponse)
        initialEngineState)).attempts = 1
    ∧ (1 : Nat) ≠ 0 := by
  refine ⟨rfl, rfl, by omega⟩

/-- C4 amended: an invalid configuration does not block any Orchestrator
operation; with positive fuel every operation (completion, explanation,
refactor, connectivity probe) issues at least one network attempt even
when the validation result has isValid false, since validation is never
consulted on the request path. -/
theorem operations_issue_request_regardless_of_validation
    (c : AIConfig) (rc : CodeCompletionRequest) (re : CodeExplanationRequest)
    (rr : CodeRefactorRequest) (send : Nat → WireOutcome) (st : EngineState)
    (fuel : Nat) (_hv : (validateConfiguration c).isValid = false)
    (hf : 0 < fuel) :
    st.attempts + 1 ≤
      (completionOutcomeState (generateCompletion fuel c rc send st)).attempts
    ∧ st.attempts + 1 ≤
      (textOutcomeState (explainCode fuel c re send st)).attempts
    ∧ st.attempts + 1 ≤
      (textOutcomeState (refactorCode fuel c rr send st)).attempts
    ∧ st.attempts + 1 ≤
      (probeOutcomeState (testConnection fuel c send st)).attempts := by
  refine ⟨?_, ?_, ?_, ?_⟩
  · rw [completionOutcomeState_generateCompletion]
    exact makeRequest_attempts_step fuel _ _ send st hf
  · rw [textOutcomeState_explainCode]
    exact makeRequest_attempts_step fuel _ _ send st hf
  · rw [textOutcomeState_refactorCode]
    exact makeRequest_attempts_step fuel _ _ send st hf
  · rw [probeOutcomeState_testConnection]
    exact makeRequest_attempts_step fuel _ _ send st hf

/-- Witness for the amended C4 at the invalid configuration: all four
operations issue their first attempt with fuel 1. -/
theorem operations_issue_request_regardless_of_validation_witness :
    initialEngineState.attempts + 1 ≤
      (completionOutcomeState (generateCompletion 1 invalidConfig
        sampleCompletionRequest (fun _ => WireOutcome.ok sampleResponse)
        initialEngineState)).attempts
    ∧ initialEngineState.attempts + 1 ≤
      (textOutcomeState (explainCode 1 invalidConfig
        ⟨"def f(x):", "python", none⟩ (fun _ => WireOutcome.ok sampleResponse)
        initialEngineState)).attempts
    ∧ initialEngineState.attempts + 1 ≤
      (textOutcomeState (refactorCode 1 invalidConfig
        ⟨"def f(x):", "python", RefactorType.optimize⟩
        (fun _ => WireOutcome.ok sampleResponse) initialEngineState)).attempts
    ∧ initialEngineState.attempts + 1 ≤
      (probeOutcomeState (testConnection 1 invalidConfig
        (fun _ => WireOutcome.ok sampleResponse) initialEngineState)).attempts :=
  operations_issue_request_regardless_of_validation invalidConfig
    sampleCompletionRequest ⟨"def f(x):", "python", none⟩
    ⟨"def f(x):", "python", RefactorType.optimize⟩
    (fun _ => WireOutcome.ok sampleResponse) initialEngineState 1 rfl
    (by norm_num)

/-- C5 counterexample: a 403 failure classifies as Authentication, yet the
substituted message is the generic API-error message, not the
invalid-credential one (the interceptor switches on the exact status 401);
and when the request pipeline of generateCompletion fails terminally, the
caller receives the fixed generic wrapper message, not the substituted
originating failure. -/
theorem surfaced_error_not_classification_specific :
    classify authFailure403 = ErrorClassification.Authentication
    ∧ interceptMessage authFailure403 = "API Error: Unknown error"
    ∧ "API Error: Unknown error" ≠ "Invalid API key. Please check your configuration."
    ∧ generateCompletion 1 invalidConfig sampleCompletionRequest
        (fun _ => WireOutcome.err authFailure401)
        { retryCount := [(("/chat/completions", 0), 3)], now := 0,
          attempts := 0, delays := [] } =
      CompletionOutcome.err "Failed to generate code completion"
        { retryCount := [], now := 0, attempts := 1, delays := [] } := by
  refine ⟨rfl, rfl, by decide, rfl⟩

/-- C5 amended: the interceptor substitutes messages keyed on the exact
status (401 invalid-credential, 429 rate-limit, 500 server-error, any other
status including 403 and 503 the generic message carrying the underlying
API error message, and the network message when no response but a request
is attached), and an Orchestrator operation whose request pipeline fails
terminally surfaces its fixed per-operation generic wrapper message, not
the substituted originating failure. -/
theorem intercept_substitution_and_operation_wrapper :
    (∀ (e : ApiFailure) (r : HttpErrorResponse), e.response = some r →
      ((r.status = 401 →
          interceptMessage e = "Invalid API key. Please check your configuration.")
       ∧ (r.status = 429 →
          interceptMessage e = "Rate limit exceeded. Please try again later.")
       ∧ (r.status = 500 →
          interceptMessage e = "DeepSeek API server error. Please try again later.")
       ∧ (r.status ≠ 401 → r.status ≠ 429 → r.status ≠ 500 →
          interceptMessage e = "API Error: " ++
            (match r.data.errorMessage with
             | some m => if m = "" then "Unknown error" else m
             | none => "Unknown error"))))
    ∧ (∀ e : ApiFailure, e.response = none → e.hasRequest = true →
        interceptMessage e = "Network error. Please check your internet connection.")
    ∧ (∀ (fuel : Nat) (c : AIConfig) (r : CodeCompletionRequest)
         (send : Nat → WireOutcome) (st : EngineState) (e : ApiFailure)
         (st' : EngineState),
        makeRequest fuel "/chat/completions" (buildCompletionRequest c r) send st =
          EngineResult.failure e st' →
        generateCompletion fuel c r send st =
          CompletionOutcome.err "Failed to generate code completion" st') := by
  refine ⟨?_, ?_, ?_⟩
  · intro e r hr
    refine ⟨?_, ?_, ?_, ?_⟩
    · intro h1
      simp [interceptMessage, hr, h1]
    · intro h1
      simp [interceptMessage, hr, h1]
    · intro h1
      simp [interceptMessage, hr, h1]
    · intro h1 h2 h3
      simp [interceptMessage, hr, h1, h2, h3]
  · intro e hr hq
    simp [interceptMessage, hr, hq]
  · intro fuel c r send st e st' h
    simp [generateCompletion, h]

/-- Witness for the amended C5: the 401 substitution at a concrete failure,
and the generic wrapper surfaced on a concrete terminal failure of
generateCompletion. -/
theorem intercept_substitution_and_operation_wrapper_witness :
    interceptMessage authFailure401 = "Invalid API key. Please check your configuration."
    ∧ generateCompletion 1 invalidConfig sampleCompletionRequest
        (fun _ => WireOutcome.err serverFault500)
        { retryCount := [(("/chat/completions", 0), 3)], now := 0,
          attempts := 0, delays := [] } =
      CompletionOutcome.err "Failed to generate code completion"
        { retryCount := [], now := 0, attempts := 1, delays := [] } :=
  ⟨(intercept_substitution_and_operation_wrapper.1 authFailure401 ⟨401, ⟨none⟩⟩ rfl).1 rfl,
   intercept_substitution_and_operation_wrapper.2.2 1 invalidConfig
     sampleCompletionRequest (fun _ => WireOutcome.err serverFault500)
     { retryCount := [(("/chat/completions", 0), 3)], now := 0,
       attempts := 0, delays := [] }
     (interceptError serverFault500)
     { retryCount := [], now := 0, attempts := 1, delays := [] } rfl⟩

theorem processTimers_nil (now : Nat) (table : List (String × Nat)) :
    processTimers now table [] = (table, []) := rfl

theorem processTimers_due (now : Nat) (table : List (String × Nat))
    (timer : Nat × String) (rest : List (Nat × String)) (h : timer.1 ≤ now) :
    processTimers now table (timer :: rest) =
      processTimers now (mapErase table timer.2) rest := by
  unfold processTimers
  rw [if_pos h]
  cases rest <;> rfl

theorem processTimers_pending (now : Nat) (table : List (String × Nat))
    (timer : Nat × String) (rest : List (Nat × String)) (h : ¬ (timer.1 ≤ now)) :
    processTimers now table (timer :: rest) =
      ((processTimers now table rest).1, timer :: (processTimers now table rest).2) := by
  unfold processTimers
  rw [if_neg h]
  cases rest <;> rfl

theorem throttle_key_boom : getErrorKey (ThrownValue.str "boom") "op" = "op:boom" := rfl

/-- Evaluation of the throttle over two occurrences of the same key at
instants 0 and d inside the first window: the count reaches 2 and both
deletion timers are pending. -/
theorem runThrottleTrace_two_events (d : Nat) (hd : ¬ (fiveMinutesMs ≤ d)) :
    runThrottleTrace ⟨[], []⟩
      [(0, ThrownValue.str "boom", "op"), (d, ThrownValue.str "boom", "op")] =
    ⟨[("op:boom", 2)], [(fiveMinutesMs, "op:boom"), (d + fiveMinutesMs, "op:boom")]⟩ := by
  simp [runThrottleTrace, throttleOccurrence, fireDueTimers, processTimers,
    handleErrorStep, mapLookup, mapInsert, throttle_key_boom, hd]

/-- Evaluation over three occurrences at 0, d and r, where r lies after the
first expiry but before the stale timer of the second occurrence: the
timer from instant 0 has fired (removing the first-generation record), the
recreated record has count 1, and the stale timer scheduled at instant d is
still pending. -/
theorem runThrottleTrace_three_events (d r : Nat) (hd : ¬ (fiveMinutesMs ≤ d))
    (hr1 : fiveMinutesMs ≤ r) (hr2 : ¬ (d + fiveMinutesMs ≤ r)) :
    runThrottleTrace ⟨[], []⟩
      [(0, ThrownValue.str "boom", "op"), (d, ThrownValue.str "boom", "op"),
       (r, ThrownValue.str "boom", "op")] =
    ⟨[("op:boom", 1)], [(d + fiveMinutesMs, "op:boom"), (r + fiveMinutesMs, "op:boom")]⟩ := by
  simp [runThrottleTrace, throttleOccurrence, fireDueTimers, processTimers,
    handleErrorStep, mapLookup, mapInsert, mapErase, throttle_key_boom, hd, hr1, hr2]

/-- C9 counterexample: with occurrences of the same key at 0s, 120s and
320s, the record recreated at 320s (after the 300s expiry of the first
generation) is still present at 419.999s but has been removed at 420s by
the stale timer scheduled at the 120s occurrence — 100s after its creation,
well before its own 5-minute mark. -/
theorem error_record_removed_early_after_recreation :
    mapLookup (observeTable
        [(0, ThrownValue.str "boom", "op"), (120000, ThrownValue.str "boom", "op"),
         (320000, ThrownValue.str "boom", "op")] 419999) "op:boom" = some 1
    ∧ mapLookup (observeTable
        [(0, ThrownValue.str "boom", "op"), (120000, ThrownValue.str "boom", "op"),
         (320000, ThrownValue.str "boom", "op")] 420000) "op:boom" = none
    ∧ 420000 - 320000 < fiveMinutesMs := by
  refine ⟨rfl, rfl, by decide⟩

/-- C9 amended: every occurrence schedules an unconditional removal of its
key 5 minutes later.  A first-generation record (no removal pending at
creation) is removed exactly 5 minutes after creation and not before, and a
further occurrence inside the window neither extends nor shortens that
lifetime; but a record recreated after expiry can be removed strictly
earlier than 5 minutes after its own creation, namely when a removal
scheduled during the previous generation is still pending. -/
theorem error_record_fixed_ttl_first_generation_not_recreation (d r : Nat)
    (_hd0 : 0 < d) (hd : d < fiveMinutesMs) (hr1 : fiveMinutesMs < r)
    (hr2 : r < d + fiveMinutesMs) :
    (∀ t : Nat, t < fiveMinutesMs →
      (mapLookup (observeTable
          [(0, ThrownValue.str "boom", "op"), (d, ThrownValue.str "boom", "op")] t)
        "op:boom").isSome = true)
    ∧ mapLookup (observeTable
        [(0, ThrownValue.str "boom", "op"), (d, ThrownValue.str "boom", "op")]
        fiveMinutesMs) "op:boom" = none
    ∧ mapLookup (observeTable
        [(0, ThrownValue.str "boom", "op"), (d, ThrownValue.str "boom", "op"),
         (r, ThrownValue.str "boom", "op")] (d + fiveMinutesMs - 1)) "op:boom" = some 1
    ∧ mapLookup (observeTable
        [(0, ThrownValue.str "boom", "op"), (d, ThrownValue.str "boom", "op"),
         (r, ThrownValue.str "boom", "op")] (d + fiveMinutesMs)) "op:boom" = none
    ∧ d + fiveMinutesMs < r + fiveMinutesMs := by
  have hfm : fiveMinutesMs = 300000 := rfl
  refine ⟨?_, ?_, ?_, ?_, by omega⟩
  · intro t ht
    by_cases hdt : d ≤ t
    · have h1 : ¬ (fiveMinutesMs ≤ t) := by omega
      have h2 : ¬ (d + fiveMinutesMs ≤ t) := by omega
      simp only [observeTable, List.filter_cons, List.filter_nil]
      simp [hdt]
      rw [runThrottleTrace_two_events d (by omega)]
      simp [fireDueTimers, processTimers, mapLookup, h1, h2]
    · have h1 : ¬ (fiveMinutesMs ≤ t) := by omega
      have hrun : runThrottleTrace ⟨[], []⟩ [(0, ThrownValue.str "boom", "op")] =
          ⟨[("op:boom", 1)], [(fiveMinutesMs, "op:boom")]⟩ := by
        simp [runThrottleTrace, throttleOccurrence, fireDueTimers, processTimers,
          handleErrorStep, mapLookup, mapInsert, throttle_key_boom]
      simp only [observeTable, List.filter_cons, List.filter_nil]
      simp [hdt]
      rw [hrun]
      simp [fireDueTimers, processTimers, mapLookup, h1]
  · have hdm : d ≤ fiveMinutesMs := by omega
    have h2 : ¬ (d + fiveMinutesMs ≤ fiveMinutesMs) := by omega
    generalize hT : fiveMinutesMs = T at hdm h2 ⊢
    simp only [observeTable, List.filter_cons, List.filter_nil]
    simp [hdm]
    rw [runThrottleTrace_two_events d (by omega)]
    simp [fireDueTimers, processTimers, mapErase, mapLookup, hT, h2]
  · have hTd : d ≤ d + fiveMinutesMs - 1 := by omega
    have hTr : r ≤ d + fiveMinutesMs - 1 := by omega
    have h1 : ¬ (d + fiveMinutesMs ≤ d + fiveMinutesMs - 1) := by omega
    have h2 : ¬ (r + fiveMinutesMs ≤ d + fiveMinutesMs - 1) := by omega
    generalize hT : d + fiveMinutesMs - 1 = T at hTd hTr h1 h2 ⊢
    simp only [observeTable, List.filter_cons, List.filter_nil]
    simp [hTd, hTr]
    rw [runThrottleTrace_three_events d r (by omega) (by omega) (by omega)]
    simp [fireDueTimers, processTimers, mapLookup, h1, h2]
  · have hTd : d ≤ d + fiveMinutesMs := by omega
    have hTr : r ≤ d + fiveMinutesMs := by omega
    have h2 : ¬ (r + fiveMinutesMs ≤ d + fiveMinutesMs) := by omega
    generalize hT : d + fiveMinutesMs = T at hTd hTr h2 ⊢
    simp only [observeTable, List.filter_cons, List.filter_nil]
    simp [hTd, hTr]
    rw [runThrottleTrace_three_events d r (by omega) (by omega) (by omega)]
    simp [fireDueTimers, processTimers, mapErase, mapLookup, hT, h2]

/-- Witness for the amended C9 at d 120s and r 320s: the two-occurrence
record is present at 299.999s, gone exactly at 300s, and the recreated
record is gone at 420s. -/
theorem error_record_fixed_ttl_first_generation_not_recreation_witness :
    (mapLookup (observeTable
        [(0, ThrownValue.str "boom", "op"), (120000, ThrownValue.str "boom", "op")]
        299999) "op:boom").isSome = true
    ∧ mapLookup (observeTable
        [(0, ThrownValue.str "boom", "op"), (120000, ThrownValue.str "boom", "op")]
        fiveMinutesMs) "op:boom" = none
    ∧ mapLookup (observeTable
        [(0, ThrownValue.str "boom", "op"), (120000, ThrownValue.str "boom", "op"),
         (320000, ThrownValue.str "boom", "op")] (120000 + fiveMinutesMs)) "op:boom" = none :=
  ⟨(error_record_fixed_ttl_first_generation_not_recreation 120000 320000
      (by decide) (by decide) (by decide) (by decide)).1 299999 (by decide),
   (error_record_fixed_ttl_first_generation_not_recreation 120000 320000
      (by decide) (by decide) (by decide) (by decide)).2.1,
   (error_record_fixed_ttl_first_generation_not_recreation 120000 320000
      (by decide) (by decide) (by decide) (by decide)).2.2.2.1⟩

end AssistantCore
